import Mathlib

/-!
Shallow embedding of the Task lifecycle core of `src/schema/schema.py`:
the `Task` state machine (`__init__`, `start`, `write_data`, `finish`)
and the `TaskMessageData` payload model, together with an explicit
operation list / trace semantics used to state invariants over call
sequences, and a small heap used to state aliasing facts about the
`data` mapping argument.
-/

namespace AgentSchema

/-- The `state` enumeration of a Task: `Literal["new", "running", "complete"]`. -/
inductive TaskState
  | new
  | running
  | complete
deriving DecidableEq

/-- The `result` enumeration: `Literal["success", "error"]`. -/
inductive TaskResult
  | success
  | error
deriving DecidableEq

/-- The free-form `dict[str, Any]` mapping carried in snapshots, modelled as an
association list from string keys to string values. -/
abbrev Dict := List (String × String)

/-- One emitted snapshot: the `TaskMessageData` pydantic model of `schema.py`
with its five fields. `name` and `state` and `result` are optional with
default `None`; `run_id` defaults to the empty string; `data` defaults to the
empty mapping. -/
structure TaskMessageData where
  name : Option String
  run_id : String
  state : Option TaskState
  result : Option TaskResult
  data : Dict
deriving DecidableEq

/-- Parse a raw string into the `state` enumeration, as pydantic validation of
the `Literal["new", "running", "complete"]` annotation does. -/
def parseState : String → Option TaskState
  | "new" => some TaskState.new
  | "running" => some TaskState.running
  | "complete" => some TaskState.complete
  | _ => none

/-- Serialize a `TaskState` to its wire string, as `model_dump` does. -/
def stateToString : TaskState → String
  | TaskState.new => "new"
  | TaskState.running => "running"
  | TaskState.complete => "complete"

/-- Parse a raw string into the `result` enumeration, as pydantic validation of
the `Literal["success", "error"]` annotation does. -/
def parseResult : String → Option TaskResult
  | "success" => some TaskResult.success
  | "error" => some TaskResult.error
  | _ => none

/-- Serialize a `TaskResult` to its wire string, as `model_dump` does. -/
def resultToString : TaskResult → String
  | TaskResult.success => "success"
  | TaskResult.error => "error"

/-- The error kinds surfaced by the core: pydantic `ValidationError` on bad
enumerated fields, and the `ValueError` raised by `Task.write_data` on a
non-running task (the spec's `InvalidTransition`). -/
inductive SchemaError
  | validationError (msg : String)
  | invalidTransition (msg : String)
deriving DecidableEq

/-- Validate one optional enumerated field: absent is fine (keeps the default
`None`), present must parse. -/
def checkEnum {α : Type} (parse : String → Option α) : Option String → Except SchemaError (Option α)
  | none => Except.ok none
  | some s =>
    match parse s with
    | some v => Except.ok (some v)
    | none => Except.error (SchemaError.validationError (String.append "invalid enum member: " s))

/-- Construction of a `TaskMessageData` from raw (wire-typed) field values, as
the pydantic constructor validates them: an omitted field takes its declared
default (`run_id = ""`, `data = {}`, the rest `None`); a supplied `state` or
`result` outside its `Literal` domain makes construction fail with a
`ValidationError`. -/
def TaskMessageData.construct (name : Option String) (run_id : Option String)
    (state : Option String) (result : Option String) (data : Option Dict) :
    Except SchemaError TaskMessageData :=
  match checkEnum parseState state, checkEnum parseResult result with
  | Except.ok st, Except.ok rs =>
      Except.ok ⟨name, run_id.getD "", st, rs, data.getD []⟩
  | Except.error e, _ => Except.error e
  | _, Except.error e => Except.error e

/-- The wire (key/value) form of a `TaskMessageData` produced by `model_dump`:
enumerated fields become their literal strings, optional fields stay optional. -/
structure WireTaskMessage where
  name : Option String
  run_id : String
  state : Option String
  result : Option String
  data : Dict
deriving DecidableEq

/-- Serialization of a `TaskMessageData` to its wire mapping (`model_dump`). -/
def TaskMessageData.model_dump (m : TaskMessageData) : WireTaskMessage :=
  ⟨m.name, m.run_id, m.state.map stateToString, m.result.map resultToString, m.data⟩

/-- Deserialization of a wire mapping back into a `TaskMessageData`, via the
validating constructor (pydantic `model_validate` / keyword construction). -/
def WireTaskMessage.validate (w : WireTaskMessage) : Except SchemaError TaskMessageData :=
  TaskMessageData.construct w.name (some w.run_id) w.state w.result (some w.data)

/-- The `Task` entity of `schema.py`: `name`, `id` (a uuid4 string), mutable
`state` and `result`. -/
structure Task where
  name : String
  id : String
  state : TaskState
  result : Option TaskResult
deriving DecidableEq

/-- Creation (`Task.__init__`): `state = "new"`, `result = None`. The uuid4
value generated at creation is passed in as an arbitrary string. -/
def Task.create (task_name : String) (uuid : String) : Task :=
  ⟨task_name, uuid, TaskState.new, none⟩

/-- The `Task.start` operation: sets `state = "running"`, then builds the
snapshot from the task's current fields (`name`, `run_id = id`,
`state = self.state`, no `result`) and the given `data`, and emits it.
Returns the updated task and the emitted snapshot. -/
def Task.start (t : Task) (data : Dict) : Task × TaskMessageData :=
  let t' : Task := ⟨t.name, t.id, TaskState.running, t.result⟩
  (t', ⟨some t'.name, t'.id, some t'.state, none, data⟩)

/-- The `Task.write_data` operation: raises `ValueError("Only running tasks
can output data.")` when `state != "running"`; otherwise builds and emits the
snapshot with the current state and the given `data`, leaving the task
unchanged. -/
def Task.write_data (t : Task) (data : Dict) : Except SchemaError (Task × TaskMessageData) :=
  if t.state ≠ TaskState.running then
    Except.error (SchemaError.invalidTransition "Only running tasks can output data.")
  else
    Except.ok (t, ⟨some t.name, t.id, some t.state, none, data⟩)

/-- The `Task.finish` operation: sets `state = "complete"` and
`result = result`, then builds and emits the terminal snapshot carrying
`state = self.state`, `result = self.result` and the given `data`. -/
def Task.finish (t : Task) (result : TaskResult) (data : Dict) : Task × TaskMessageData :=
  let t' : Task := ⟨t.name, t.id, TaskState.complete, some result⟩
  (t', ⟨some t'.name, t'.id, some t'.state, t'.result, data⟩)

/-- One operation applied to a Task in a call sequence. -/
inductive Op
  | start (data : Dict)
  | write_data (data : Dict)
  | finish (result : TaskResult) (data : Dict)
deriving DecidableEq

/-- One step of the call sequence: the resulting task and the snapshots handed
to the EventSink by that call. A `write_data` call on a non-running task
raises before constructing any snapshot, so it emits nothing and leaves the
task unchanged. -/
def Task.step (t : Task) (op : Op) : Task × List TaskMessageData :=
  match op with
  | Op.start data =>
    let r := t.start data
    (r.1, [r.2])
  | Op.write_data data =>
    match t.write_data data with
    | Except.ok r => (r.1, [r.2])
    | Except.error _ => (t, [])
  | Op.finish result data =>
    let r := t.finish result data
    (r.1, [r.2])

/-- Run a whole call sequence, accumulating the trace of snapshots the
EventSink receives, in emission order. -/
def Task.run (t : Task) : List Op → Task × List TaskMessageData
  | [] => (t, [])
  | op :: ops =>
    let s := t.step op
    let r := s.1.run ops
    (r.1, s.2 ++ r.2)

/-- Guard for the amended C1 invariant: the one unguarded transition the code
permits that can break it is `start` on a completed task. -/
def Task.startGuard (t : Task) : Op → Bool
  | Op.start _ => !(t.state == TaskState.complete)
  | _ => true

/-- A call sequence is guard-safe from `t` when no `start` in it is applied to
a task whose state is `complete`. -/
def Task.safeOps (t : Task) : List Op → Bool
  | [] => true
  | op :: ops => t.startGuard op && (t.step op).1.safeOps ops

/-- The C1 invariant as a boolean: `result` is non-null iff
`state == "complete"`. -/
def Task.invB (t : Task) : Bool :=
  (t.result != none) == (t.state == TaskState.complete)

/-- A heap of mutable `dict` objects, used to state aliasing properties of the
`data` argument: references are indices. -/
abbrev Heap := List Dict

/-- Read the mapping currently stored at a reference. -/
def heapRead (h : Heap) (ref : Nat) : Dict := h.getD ref []

/-- Mutate the mapping stored at a reference in place. -/
def heapWrite (h : Heap) (ref : Nat) (v : Dict) : Heap := h.set ref v

/-- `Task.write_data` called with the mutable mapping stored at `ref`: the
snapshot captures the mapping's value at call time, because pydantic
validation and `model_dump` each build a fresh dict rather than retaining the
caller's object. -/
def Task.write_data_ref (t : Task) (h : Heap) (ref : Nat) :
    Except SchemaError (Task × TaskMessageData) :=
  t.write_data (heapRead h ref)

/-- Helper: every single step preserves the C1 invariant as long as `start` is
not applied to a completed task. -/
theorem step_preserves_invB (t : Task) (op : Op) (hinv : t.invB = true)
    (hguard : t.startGuard op = true) : (t.step op).1.invB = true := by
  cases op with
  | start data =>
    simp [Task.startGuard] at hguard
    simp [Task.invB] at hinv
    simp [Task.step, Task.start, Task.invB]
    have hfalse : (t.state == TaskState.complete) = false := by
      simpa using hguard
    rw [hinv, hfalse]
    decide
  | write_data data =>
    by_cases h : t.state = TaskState.running
    · simp [Task.step, Task.write_data, h]
      simpa [Task.invB, h] using hinv
    · simp [Task.step, Task.write_data, h]
      exact hinv
  | finish result data =>
    simp [Task.step, Task.finish, Task.invB]

/-- Helper: the C1 invariant is preserved along any guard-safe call sequence. -/
theorem run_preserves_invB (ops : List Op) : ∀ t : Task, t.invB = true →
    t.safeOps ops = true → (t.run ops).1.invB = true := by
  induction ops with
  | nil => intro t hinv _; simpa [Task.run] using hinv
  | cons op ops ih =>
    intro t hinv hsafe
    simp [Task.safeOps, Bool.and_eq_true] at hsafe
    have hstep := step_preserves_invB t op hinv hsafe.1
    simpa [Task.run] using ih (t.step op).1 hstep hsafe.2

/-- C1 counterexample: the claim "for every sequence of operations the field
`result` is non-null iff `state == complete`" fails on the code. `start` has
no guard, so on a fresh Task the concrete sequence `finish(success)` then
`start()` leaves `state = running` while `result = success` is still set. -/
theorem c1_counterexample :
    ((Task.create "t" "id-0").run
        [Op.finish TaskResult.success [], Op.start []]).1.result = some TaskResult.success ∧
    ((Task.create "t" "id-0").run
        [Op.finish TaskResult.success [], Op.start []]).1.state = TaskState.running ∧
    ((Task.create "t" "id-0").run
        [Op.finish TaskResult.success [], Op.start []]).1.invB = false := by
  refine ⟨rfl, rfl, rfl⟩

/-- C1 (amended): for every fresh Task and every call sequence in which
`start` is never invoked while the Task's state is `complete`, the field
`result` is set (non-null) if and only if `state == complete`. -/
theorem c1_result_iff_complete (task_name uuid : String) (ops : List Op)
    (hsafe : (Task.create task_name uuid).safeOps ops = true) :
    ((Task.create task_name uuid).run ops).1.invB = true :=
  run_preserves_invB ops (Task.create task_name uuid) rfl hsafe

/-- C1 witness: the amended invariant at a concrete safe sequence. -/
theorem c1_result_iff_complete_witness :
    (Task.create "a" "b").safeOps
        [Op.start [], Op.write_data [("k", "v")], Op.finish TaskResult.success []] = true ∧
    ((Task.create "a" "b").run
        [Op.start [], Op.write_data [("k", "v")], Op.finish TaskResult.success []]).1.invB = true :=
  ⟨by decide, c1_result_iff_complete "a" "b"
      [Op.start [], Op.write_data [("k", "v")], Op.finish TaskResult.success []] (by decide)⟩

/-- C2: `write_data` fails with the `InvalidTransition` error (the raised
`ValueError("Only running tasks can output data.")`) if and only if the
Task's state is not `running`; equivalently it succeeds if and only if the
state is `running`. -/
theorem c2_write_data_guard (t : Task) (data : Dict) :
    (t.write_data data =
        Except.error (SchemaError.invalidTransition "Only running tasks can output data.") ↔
      t.state ≠ TaskState.running) ∧
    ((t.write_data data).isOk = true ↔ t.state = TaskState.running) := by
  by_cases h : t.state = TaskState.running <;>
    simp [Task.write_data, h, Except.isOk, Except.toBool]

/-- C3: a fresh Task taken through `start`, `write_data(d1)`, `write_data(d2)`,
`finish(success, d3)` hands the EventSink exactly four snapshots, in emission
order, with state sequence `[running, running, running, complete]`, and the
last snapshot carries `result = success` and `data = d3`. -/
theorem c3_four_snapshots (task_name uuid : String) (d0 d1 d2 d3 : Dict) :
    ((Task.create task_name uuid).run
        [Op.start d0, Op.write_data d1, Op.write_data d2,
          Op.finish TaskResult.success d3]).2.map (fun m => m.state) =
      [some TaskState.running, some TaskState.running,
        some TaskState.running, some TaskState.complete] ∧
    ((Task.create task_name uuid).run
        [Op.start d0, Op.write_data d1, Op.write_data d2,
          Op.finish TaskResult.success d3]).2.getLast?.map (fun m => m.result) =
      some (some TaskResult.success) ∧
    ((Task.create task_name uuid).run
        [Op.start d0, Op.write_data d1, Op.write_data d2,
          Op.finish TaskResult.success d3]).2.getLast?.map (fun m => m.data) =
      some d3 := by
  refine ⟨rfl, rfl, rfl⟩

/-- C4: `start` sets the Task's state to `running` and emits (and returns)
exactly one snapshot whose state is `running`, whose data is the given
mapping, and which carries no result. -/
theorem c4_start_effect (t : Task) (data : Dict) :
    (t.start data).1.state = TaskState.running ∧
    (t.start data).2.state = some TaskState.running ∧
    (t.start data).2.data = data ∧
    (t.start data).2.result = none ∧
    (t.step (Op.start data)).2 = [(t.start data).2] := by
  refine ⟨rfl, rfl, rfl, rfl, rfl⟩

/-- C5: for every result value in `{success, error}` and every data mapping,
`finish` sets the Task's state to `complete` and its result field to the
given result, and emits exactly one terminal snapshot carrying
`state = complete`, that result, and the given data. -/
theorem c5_finish_effect (t : Task) (result : TaskResult) (data : Dict) :
    (t.finish result data).1.state = TaskState.complete ∧
    (t.finish result data).1.result = some result ∧
    (t.finish result data).2.state = some TaskState.complete ∧
    (t.finish result data).2.result = some result ∧
    (t.finish result data).2.data = data ∧
    (t.step (Op.finish result data)).2 = [(t.finish result data).2] := by
  refine ⟨rfl, rfl, rfl, rfl, rfl, rfl⟩

/-- Helper: no step changes `id` or `name`, and every snapshot a step emits
carries the task's `id` as `run_id` and the task's `name`. -/
theorem step_frame (t : Task) (op : Op) :
    (t.step op).1.id = t.id ∧ (t.step op).1.name = t.name ∧
    ∀ m ∈ (t.step op).2, m.run_id = t.id ∧ m.name = some t.name := by
  cases op with
  | start data => simp [Task.step, Task.start]
  | write_data data =>
    by_cases h : t.state = TaskState.running <;>
      simp [Task.step, Task.write_data, h]
  | finish result data => simp [Task.step, Task.finish]

/-- Helper: along any call sequence, `id` and `name` are unchanged and every
snapshot in the trace carries them. -/
theorem run_frame (ops : List Op) : ∀ t : Task,
    (t.run ops).1.id = t.id ∧ (t.run ops).1.name = t.name ∧
    ∀ m ∈ (t.run ops).2, m.run_id = t.id ∧ m.name = some t.name := by
  induction ops with
  | nil => intro t; simp [Task.run]
  | cons op ops ih =>
    intro t
    have hstep := step_frame t op
    have hrest := ih (t.step op).1
    refine ⟨?_, ?_, ?_⟩
    · simp [Task.run, hrest.1, hstep.1]
    · simp [Task.run, hrest.2.1, hstep.2.1]
    · intro m hm
      simp [Task.run] at hm
      rcases hm with hm | hm
      · exact hstep.2.2 m hm
      · have := hrest.2.2 m hm
        rw [hstep.1, hstep.2.1] at this
        exact this

/-- C6: the fields `id` and `name` assigned at creation are never changed by
any subsequent call sequence, and every snapshot the Task emits carries that
`id` as its `run_id` and that `name` as its `name`. -/
theorem c6_id_name_immutable (task_name uuid : String) (ops : List Op) :
    ((Task.create task_name uuid).run ops).1.id = uuid ∧
    ((Task.create task_name uuid).run ops).1.name = task_name ∧
    (((Task.create task_name uuid).run ops).2.all
        (fun m => m.run_id == uuid && m.name == some task_name)) = true := by
  have h := run_frame ops (Task.create task_name uuid)
  refine ⟨h.1, h.2.1, ?_⟩
  rw [List.all_eq_true]
  intro m hm
  have := h.2.2 m hm
  simp [Task.create] at this
  simp [this.1, this.2]

/-- C7: construction of a `TaskMessageData` fails (with a `ValidationError`)
if and only if a supplied `state` is outside `{new, running, complete}` or a
supplied `result` is outside `{success, error}`; constructing it with
`state = "bogus"` fails with a `ValidationError`; and when `run_id` is not
supplied it defaults to the empty string. -/
theorem c7_validation :
    (∀ (name run_id state result : Option String) (data : Option Dict),
      (TaskMessageData.construct name run_id state result data).isOk = false ↔
        (∃ s, state = some s ∧ parseState s = none) ∨
        (∃ r, result = some r ∧ parseResult r = none)) ∧
    TaskMessageData.construct none none (some "bogus") none none =
      Except.error (SchemaError.validationError "invalid enum member: bogus") ∧
    (∀ (name : Option String) (data : Dict),
      TaskMessageData.construct name none none none (some data) =
        Except.ok ⟨name, "", none, none, data⟩) := by
  refine ⟨?_, rfl, fun name data => rfl⟩
  intro name run_id state result data
  rcases state with _ | s <;> rcases result with _ | r
  · simp [TaskMessageData.construct, checkEnum, Except.isOk, Except.toBool]
  · rcases hr : parseResult r with _ | v <;>
      simp [TaskMessageData.construct, checkEnum, hr, Except.isOk, Except.toBool]
  · rcases hs : parseState s with _ | v <;>
      simp [TaskMessageData.construct, checkEnum, hs, Except.isOk, Except.toBool]
  · rcases hs : parseState s with _ | v <;> rcases hr : parseResult r with _ | w <;>
      simp [TaskMessageData.construct, checkEnum, hs, hr, Except.isOk, Except.toBool]

/-- C8: serializing any valid `TaskMessageData` to its wire key/value mapping
and deserializing that mapping back yields the original, field for field. -/
theorem c8_roundtrip (m : TaskMessageData) :
    m.model_dump.validate = Except.ok m := by
  rcases m with ⟨n, rid, st, res, d⟩
  rcases st with _ | s <;> rcases res with _ | r
  · rfl
  · cases r <;> rfl
  · cases s <;> rfl
  · cases s <;> cases r <;> rfl

/-- Helper: reading a reference right after writing it yields the value just
written, when the reference is live. -/
theorem heapRead_heapWrite_self : ∀ (h : Heap) (ref : Nat) (v : Dict),
    ref < h.length → heapRead (heapWrite h ref v) ref = v := by
  intro h
  induction h with
  | nil => intro ref v hlt; simp at hlt
  | cons a t ih =>
    intro ref v hlt
    cases ref with
    | zero => rfl
    | succ n =>
      have hn : n < t.length := by simpa using Nat.lt_of_succ_lt_succ hlt
      simpa [heapRead, heapWrite, List.getD] using ih n v hn

/-- C9: the snapshot `write_data` emits captures the value the passed mapping
held at call time (pydantic validation and `model_dump` copy it), so mutating
that mapping after the call returns leaves the already-emitted snapshot
unchanged: after overwriting the reference with a different value, the
snapshot's data still equals the old value and differs from what the mapping
now holds. -/
theorem c9_snapshot_immutable (t : Task) (h : Heap) (ref : Nat) (v' : Dict)
    (t' : Task) (m : TaskMessageData)
    (hcall : t.write_data_ref h ref = Except.ok (t', m))
    (hlive : ref < h.length) (hchanged : v' ≠ heapRead h ref) :
    m.data = heapRead h ref ∧ heapRead (heapWrite h ref v') ref ≠ m.data := by
  by_cases hrun : t.state = TaskState.running
  · simp [Task.write_data_ref, Task.write_data, hrun] at hcall
    constructor
    · rw [← hcall.2]
    · rw [heapRead_heapWrite_self h ref v' hlive, ← hcall.2]
      exact hchanged
  · simp [Task.write_data_ref, Task.write_data, hrun] at hcall

/-- C9 witness: a running task, a one-cell heap, and a mutation to a different
mapping. -/
theorem c9_snapshot_immutable_witness :
    (Task.mk "a" "b" TaskState.running none).write_data_ref [[("k", "1")]] 0 =
      Except.ok (Task.mk "a" "b" TaskState.running none,
        TaskMessageData.mk (some "a") "b" (some TaskState.running) none [("k", "1")]) ∧
    (0 : Nat) < ([[("k", "1")]] : Heap).length ∧
    ([("k", "2")] : Dict) ≠ heapRead [[("k", "1")]] 0 ∧
    ((TaskMessageData.mk (some "a") "b" (some TaskState.running) none [("k", "1")]).data =
        heapRead [[("k", "1")]] 0 ∧
      heapRead (heapWrite [[("k", "1")]] 0 [("k", "2")]) 0 ≠
        (TaskMessageData.mk (some "a") "b" (some TaskState.running) none [("k", "1")]).data) :=
  ⟨rfl, by decide, by decide,
    c9_snapshot_immutable (Task.mk "a" "b" TaskState.running none) [[("k", "1")]] 0
      [("k", "2")] (Task.mk "a" "b" TaskState.running none)
      (TaskMessageData.mk (some "a") "b" (some TaskState.running) none [("k", "1")])
      rfl (by decide) (by decide)⟩

/-- C10: a `write_data` call on a Task whose state is not `running` raises
before constructing or emitting anything: the step emits no snapshot to the
EventSink, leaves every field of the Task unchanged, and surfaces exactly the
`InvalidTransition` error. -/
theorem c10_atomic_failure (t : Task) (data : Dict)
    (h : t.state ≠ TaskState.running) :
    t.write_data data =
      Except.error (SchemaError.invalidTransition "Only running tasks can output data.") ∧
    (t.step (Op.write_data data)).2 = [] ∧
    (t.step (Op.write_data data)).1 = t := by
  refine ⟨by simp [Task.write_data, h], ?_, ?_⟩ <;>
    simp [Task.step, Task.write_data, h]

/-- C10 witness: a fresh (state `new`) task refuses `write_data` atomically. -/
theorem c10_atomic_failure_witness :
    (Task.create "a" "b").state ≠ TaskState.running ∧
    ((Task.create "a" "b").write_data [("k", "v")] =
        Except.error (SchemaError.invalidTransition "Only running tasks can output data.") ∧
      ((Task.create "a" "b").step (Op.write_data [("k", "v")])).2 = [] ∧
      ((Task.create "a" "b").step (Op.write_data [("k", "v")])).1 = Task.create "a" "b") :=
  ⟨by decide, c10_atomic_failure (Task.create "a" "b") [("k", "v")] (by decide)⟩

end AgentSchema
